import Mathlib

/-!
Verification of the resilient fetch layer of the reverse_signal repository.

The repository contains two implementations of the same cache / rate-limit /
retry pattern around the SofaScore JSON API:

* the top-level service in sofascore_service.py (class SofaScoreService with
  helpers _make_cache_key, _cache_get, _cache_set, _apply_rate_limit and the
  fetch driver _get_json), modelled below in namespace Top, and
* the nested service in src/services/sofascore_service.py (methods _cache_get,
  _cache_set, _rate_limit and get_json), modelled below in namespace Nest.

The embedding is shallow: JSON payloads are an inductive type, the file cache
is an association list from keys to files carrying a modification time and a
content that is either a parseable payload or corrupt, wall-clock time is a
rational number advanced only by the sleeps the code performs, and the network
is a function from attempt numbers to outcomes (an HTTP status with a parsed
body, or a transport-level failure).  Each fetch run returns the final state,
the list of observable events (network attempts, rate-limit sleeps, backoff
sleeps, cache writes) and a result.  Python exceptions that escape a call are
modelled with an explicit error result.
-/

/-- JSON values as produced by response.json() and stored in the cache. -/
inductive JVal where
  | null
  | bool (b : Bool)
  | num (n : Int)
  | str (s : String)
  | arr (xs : List JVal)
  | obj (fields : List (String × JVal))

/-- Python truthiness of a decoded JSON value: None, False, 0, empty string,
empty list and empty dict are falsy, everything else is truthy.  Used by the
guard `if cached: return cached` in the nested service. -/
def JVal.isTruthy : JVal → Bool
  | .null => false
  | .bool b => b
  | .num n => n != 0
  | .str s => !s.isEmpty
  | .arr xs => !xs.isEmpty
  | .obj fs => !fs.isEmpty

/-- Quoting of a JSON string (escaping is abstracted: no claim depends on the
escape rules, only on serialization being a function of the value). -/
def jstr (s : String) : String := "\"" ++ s ++ "\""

mutual

/-- Model of json.dumps on a JSON value, in the given field order (the Python
default separators between elements are ", " and ": "). -/
def JVal.dumps : JVal → String
  | .null => "null"
  | .bool true => "true"
  | .bool false => "false"
  | .num n => toString n
  | .str s => jstr s
  | .arr xs => "[" ++ dumpsArr xs ++ "]"
  | .obj fs => "\x7b" ++ dumpsFields fs ++ "\x7d"

/-- Comma-separated serialization of array elements. -/
def dumpsArr : List JVal → String
  | [] => ""
  | [x] => JVal.dumps x
  | x :: xs => JVal.dumps x ++ ", " ++ dumpsArr xs

/-- Comma-separated serialization of object fields. -/
def dumpsFields : List (String × JVal) → String
  | [] => ""
  | [(k, v)] => jstr k ++ ": " ++ JVal.dumps v
  | (k, v) :: fs => jstr k ++ ": " ++ JVal.dumps v ++ ", " ++ dumpsFields fs

end

/-- Ordering of object fields by key, using the code-point order on the characters
of the key (Python compares str lexicographically by code point). -/
def keyLe (a b : String × JVal) : Prop := a.1.data ≤ b.1.data

instance : DecidableRel keyLe := fun a b =>
  inferInstanceAs (Decidable (a.1.data ≤ b.1.data))

instance : IsTotal (String × JVal) keyLe :=
  ⟨fun a b => le_total a.1.data b.1.data⟩

instance : IsTrans (String × JVal) keyLe :=
  ⟨fun _ _ _ h1 h2 => le_trans h1 h2⟩

/-- Sorting of the fields of an object by key, as json.dumps(..., sort_keys=True)
does before serializing a dict. -/
def sortByKey (l : List (String × JVal)) : List (String × JVal) :=
  List.insertionSort keyLe l

mutual

/-- Recursive key-ordering normalization: the fields of every object are put in
sorted key order, mirroring the sort_keys=True option of json.dumps. -/
def JVal.normalize : JVal → JVal
  | .null => .null
  | .bool b => .bool b
  | .num n => .num n
  | .str s => .str s
  | .arr xs => .arr (normArr xs)
  | .obj fs => .obj (sortByKey (normFields fs))

/-- Normalization of every element of an array. -/
def normArr : List JVal → List JVal
  | [] => []
  | x :: xs => JVal.normalize x :: normArr xs

/-- Normalization of every field value of an object. -/
def normFields : List (String × JVal) → List (String × JVal)
  | [] => []
  | (k, v) :: fs => (k, JVal.normalize v) :: normFields fs

end

/-- Model of json.dumps(value, sort_keys=True): serialize after putting the
fields of every object in sorted key order. -/
def jsonDumpsSorted (v : JVal) : String := JVal.dumps v.normalize

/-- Content of a cache file: a parseable JSON payload, or bytes that
json.load cannot parse (also standing for an unreadable file). -/
inductive FileContent where
  | good (v : JVal)
  | corrupt

/-- A cache file: its modification time and its content.  The modification
time is the sole TTL reference, as in the code. -/
structure CacheFile where
  mtime : ℚ
  content : FileContent

/-- Ordered-insensitive association-list lookup of a cache file by key
(one file per key on disk). -/
def assocFind : List (String × CacheFile) → String → Option CacheFile
  | [], _ => none
  | (k2, f) :: rest, k => if k2 = k then some f else assocFind rest k

/-- Association-list overwrite of the file stored under a key. -/
def assocSet : List (String × CacheFile) → String → CacheFile → List (String × CacheFile)
  | [], k, f => [(k, f)]
  | (k2, g) :: rest, k, f =>
      if k2 = k then (k, f) :: rest else (k2, g) :: assocSet rest k f

/-- Mutable service state: the last-request timestamp, the current wall-clock
time (advanced only by the sleeps the code performs) and the disk cache. -/
structure SvcState where
  lastTs : ℚ
  now : ℚ
  cache : List (String × CacheFile)

/-- Observable events of one fetch run. -/
inductive Ev where
  | rateSleep (d : ℚ)
  | netAttempt (n : Nat)
  | backoffSleep (d : ℚ)
  | cacheWrite (key : String) (v : JVal)
  | cacheWriteFail (key : String)

/-- Outcome of one network attempt: an HTTP response with a parsed JSON body,
or a transport-level failure (timeout, connection reset, DNS failure). -/
inductive Outcome where
  | status (code : Nat) (body : JVal)
  | transportError

/-- Retryable outcomes in the sense of the specification: HTTP 429, HTTP 503,
or a transport-level failure. -/
def Outcome.retryable : Outcome → Bool
  | .status c _ => c == 429 || c == 503
  | .transportError => true

/-- Result of a fetch call: a returned payload, the RuntimeError raised when
the attempt loop exhausts its retries, or an exception escaping from a cache
read (only possible in the nested service, whose _cache_get does not guard
json.load). -/
inductive FetchResult where
  | ok (v : JVal)
  | runtimeError
  | cacheReadError

/-- A completed run: final state, event list, result. -/
structure RunOut where
  state : SvcState
  evs : List Ev
  result : FetchResult

/-- Discriminator for network-attempt events. -/
def Ev.isAttempt : Ev → Bool
  | .netAttempt _ => true
  | _ => false

/-- Number of network attempts recorded in an event list. -/
def countAttempts (evs : List Ev) : Nat := (evs.filter Ev.isAttempt).length

/-- The backoff sleep durations recorded in an event list, in order. -/
def sleeps (evs : List Ev) : List ℚ :=
  evs.filterMap fun e => match e with
    | .backoffSleep d => some d
    | _ => none

/-- Backoff delay before the attempt after retryable attempt number n:
backoff_base ** attempt_number in both services. -/
def backoffDelay (base : ℚ) (n : Nat) : ℚ := base ^ n

namespace Top

/-- MAX_RETRIES = 5 in sofascore_service.py. -/
def MAX_RETRIES : Nat := 5

/-- BACKOFF_FACTOR = 1.5 in sofascore_service.py. -/
def BACKOFF_FACTOR : ℚ := 3 / 2

/-- Resolution of the request URL: path if path.startswith("http") else
base_api + path.  The startswith test is modelled on the character lists. -/
def resolve_url (base path : String) : String :=
  if "http".data.isPrefixOf path.data then path else base ++ path

/-- _make_cache_key(url, params): the key is hash(url) when params is falsy
(absent or empty), else hash(url + json.dumps(params, sort_keys=True)).  The
hash (sha256 hexdigest in the code) is an abstract function parameter: every
claim about keys below holds for an arbitrary hash function. -/
def make_cache_key (hash : String → String) (url : String)
    (params : List (String × JVal)) : String :=
  if params.isEmpty then hash url
  else hash (url ++ jsonDumpsSorted (JVal.obj params))

/-- The cache key _get_json computes for a request. -/
def request_key (hash : String → String) (base path : String)
    (params : List (String × JVal)) : String :=
  make_cache_key hash (resolve_url base path) params

/-- _cache_get(key): None when no file exists; inside try/except, None when
age > ttl, the parsed payload otherwise; any read or parse failure is caught
and yields None. -/
def cache_get (ttl : ℚ) (cache : List (String × CacheFile)) (key : String)
    (now : ℚ) : Option JVal :=
  match assocFind cache key with
  | none => none
  | some f =>
    if now - f.mtime > ttl then none
    else
      match f.content with
      | .good v => some v
      | .corrupt => none

/-- _apply_rate_limit(): sleeps until 60 / rate_limit_per_minute seconds have
elapsed since _last_request_ts.  It does not write _last_request_ts; that
field is only assigned after each network request inside _get_json. -/
def apply_rate_limit (rpm : ℚ) (s : SvcState) : SvcState × List Ev :=
  let min_interval := 60 / rpm
  let elapsed := s.now - s.lastTs
  if elapsed < min_interval then
    ({ s with now := s.now + (min_interval - elapsed) },
     [Ev.rateSleep (min_interval - elapsed)])
  else (s, [])

/-- Back-to-back calls of _apply_rate_limit with no interleaved requests. -/
def seq_waits (rpm : ℚ) : Nat → SvcState → SvcState
  | 0, s => s
  | n + 1, s => seq_waits rpm n (apply_rate_limit rpm s).1

/-- The while loop of _get_json, one recursive step per iteration.  fuel is
MAX_RETRIES - try_count; tc is the current try_count.  On each iteration the
attempt is issued, _last_request_ts is set when a response arrives, and the
outcome is dispatched: 200 returns (after _cache_set, whose failures are
caught inside _cache_set itself); 429 and 503 sleep BACKOFF_FACTOR ** n and
retry; any other status goes through resp.raise_for_status(), whose HTTPError
(for 4xx/5xx) is caught by the `except requests.RequestException`
handler of the loop itself and therefore also sleeps and retries; a non-error status below 400
falls through without sleeping; a transport failure sleeps and retries. -/
def loop (cacheWriteFails useCache : Bool) (net : Nat → Outcome) (key : String) :
    Nat → Nat → SvcState → RunOut
  | 0, _, s => ⟨s, [], .runtimeError⟩
  | fuel + 1, tc, s =>
    let n := tc + 1
    match net n with
    | .transportError =>
      let d := backoffDelay BACKOFF_FACTOR n
      let out := loop cacheWriteFails useCache net key fuel n { s with now := s.now + d }
      ⟨out.state, Ev.netAttempt n :: Ev.backoffSleep d :: out.evs, out.result⟩
    | .status code body =>
      let s1 := { s with lastTs := s.now }
      if code = 200 then
        if useCache then
          if cacheWriteFails then
            ⟨s1, [Ev.netAttempt n, Ev.cacheWriteFail key], .ok body⟩
          else
            ⟨{ s1 with cache := assocSet s1.cache key ⟨s1.now, .good body⟩ },
             [Ev.netAttempt n, Ev.cacheWrite key body], .ok body⟩
        else ⟨s1, [Ev.netAttempt n], .ok body⟩
      else if code = 429 ∨ code = 503 then
        let d := backoffDelay BACKOFF_FACTOR n
        let out := loop cacheWriteFails useCache net key fuel n { s1 with now := s1.now + d }
        ⟨out.state, Ev.netAttempt n :: Ev.backoffSleep d :: out.evs, out.result⟩
      else if 400 ≤ code ∧ code ≤ 599 then
        let d := backoffDelay BACKOFF_FACTOR n
        let out := loop cacheWriteFails useCache net key fuel n { s1 with now := s1.now + d }
        ⟨out.state, Ev.netAttempt n :: Ev.backoffSleep d :: out.evs, out.result⟩
      else
        let out := loop cacheWriteFails useCache net key fuel n s1
        ⟨out.state, Ev.netAttempt n :: out.evs, out.result⟩

/-- _get_json(path, params, use_cache): resolve the URL, compute the key; on
use_cache consult the cache and return a hit immediately; otherwise apply the
rate limit once and run the attempt loop with try_count from 0 and bound
MAX_RETRIES.  cacheWriteFails says whether the file write inside _cache_set
raises (the exception is caught and logged inside _cache_set). -/
def get_json (hash : String → String) (ttl rpm : ℚ) (cacheWriteFails : Bool)
    (net : Nat → Outcome) (base path : String) (params : List (String × JVal))
    (useCache : Bool) (s : SvcState) : RunOut :=
  let key := request_key hash base path params
  let fetch := fun (s : SvcState) =>
    let rl := apply_rate_limit rpm s
    let out := loop cacheWriteFails useCache net key MAX_RETRIES 0 rl.1
    RunOut.mk out.state (rl.2 ++ out.evs) out.result
  if useCache then
    match cache_get ttl s.cache key s.now with
    | some v => ⟨s, [], .ok v⟩
    | none => fetch s
  else fetch s

end Top

namespace Nest

/-- BASE_API in src/services/sofascore_service.py. -/
def BASE_API : String := "https://api.sofascore.com/api/v1"

/-- TTL = 60 * 60 * 6 seconds. -/
def TTL : ℚ := 60 * 60 * 6

/-- RATE_LIMIT = 20 requests per minute. -/
def RATE_LIMIT : ℚ := 20

/-- MAX_RETRIES = 5. -/
def MAX_RETRIES : Nat := 5

/-- BACKOFF = 1.5. -/
def BACKOFF : ℚ := 3 / 2

/-- The key get_json computes: self._hash(url + json.dumps(params or {},
sort_keys=True)) with url = BASE_API + path; params or {} makes the empty
parameter list serialize as the empty object. -/
def cache_key (hash : String → String) (path : String)
    (params : List (String × JVal)) : String :=
  hash (BASE_API ++ path ++ jsonDumpsSorted (JVal.obj params))

/-- _cache_get(key): None when no file exists or the entry is stale; then the
file is opened and parsed with no exception handler, so a fresh unreadable or
corrupt file raises out of the call (modelled as Except.error). -/
def cache_get (cache : List (String × CacheFile)) (key : String) (now : ℚ) :
    Except Unit (Option JVal) :=
  match assocFind cache key with
  | none => .ok none
  | some f =>
    if now - f.mtime > TTL then .ok none
    else
      match f.content with
      | .good v => .ok (some v)
      | .corrupt => .error ()

/-- _rate_limit(): gap = 60.0 / RATE_LIMIT; sleep gap - since when since < gap;
then self.last_ts = time.time() records the completion timestamp.  The
requests-per-minute budget is a parameter here; get_json instantiates it with
the module constant RATE_LIMIT. -/
def rate_limit (rpm : ℚ) (s : SvcState) : SvcState × List Ev :=
  let gap := 60 / rpm
  let since := s.now - s.lastTs
  if since < gap then
    ({ s with now := s.now + (gap - since), lastTs := s.now + (gap - since) },
     [Ev.rateSleep (gap - since)])
  else ({ s with lastTs := s.now }, [])

/-- Sequential _rate_limit calls, with a nonnegative idle duration elapsing
before each call. -/
def run_waits (rpm : ℚ) : List ℚ → SvcState → SvcState
  | [], s => s
  | idle :: rest, s =>
      run_waits rpm rest (rate_limit rpm { s with now := s.now + idle }).1

/-- The for-loop of get_json over attempt in range(1, MAX_RETRIES + 1).  A 200
response calls _cache_set (which has no exception handler of its own) and
returns the payload; when the cache write raises, the `except
Exception` handler of the loop catches it, sleeps BACKOFF ** attempt and retries.  Every
non-200 status (403/429 in their own branch, everything else in the final
branch) sleeps BACKOFF ** attempt and retries, as does a transport failure. -/
def loop (cacheWriteFails : Bool) (net : Nat → Outcome) (key : String) :
    Nat → Nat → SvcState → RunOut
  | 0, _, s => ⟨s, [], .runtimeError⟩
  | fuel + 1, tc, s =>
    let n := tc + 1
    let d := backoffDelay BACKOFF n
    match net n with
    | .transportError =>
      let out := loop cacheWriteFails net key fuel n { s with now := s.now + d }
      ⟨out.state, Ev.netAttempt n :: Ev.backoffSleep d :: out.evs, out.result⟩
    | .status code body =>
      if code = 200 then
        if cacheWriteFails then
          let out := loop cacheWriteFails net key fuel n { s with now := s.now + d }
          ⟨out.state,
           Ev.netAttempt n :: Ev.cacheWriteFail key :: Ev.backoffSleep d :: out.evs,
           out.result⟩
        else
          ⟨{ s with cache := assocSet s.cache key ⟨s.now, .good body⟩ },
           [Ev.netAttempt n, Ev.cacheWrite key body], .ok body⟩
      else
        let out := loop cacheWriteFails net key fuel n { s with now := s.now + d }
        ⟨out.state, Ev.netAttempt n :: Ev.backoffSleep d :: out.evs, out.result⟩

/-- get_json(path, params): compute the key, consult the cache (a raising
_cache_get propagates), return the cached value only when it is truthy, else
run _rate_limit and the attempt loop. -/
def get_json (hash : String → String) (cacheWriteFails : Bool)
    (net : Nat → Outcome) (path : String) (params : List (String × JVal))
    (s : SvcState) : RunOut :=
  let key := cache_key hash path params
  let fetch := fun (s : SvcState) =>
    let rl := rate_limit RATE_LIMIT s
    let out := loop cacheWriteFails net key MAX_RETRIES 0 rl.1
    RunOut.mk out.state (rl.2 ++ out.evs) out.result
  match cache_get s.cache key s.now with
  | .error _ => ⟨s, [], .cacheReadError⟩
  | .ok none => fetch s
  | .ok (some v) => if v.isTruthy then ⟨s, [], .ok v⟩ else fetch s

end Nest

/-- File-system operations performed by _cache_set in both services:
open(path, "w") truncates the destination file in place, then json.dump
writes the serialized payload.  No temporary file and no rename occur. -/
inductive FsOp where
  | openTruncate
  | writeChunk (data : String)
  | renameInto (tmp : String)

/-- Discriminator for atomic-rename operations. -/
def FsOp.isRename : FsOp → Bool
  | .renameInto _ => true
  | _ => false

/-- Effect of one file-system operation on the visible file content. -/
def applyOp (cur : String) : FsOp → String
  | .openTruncate => ""
  | .writeChunk d => cur ++ d
  | .renameInto _ => cur

/-- The operation sequence of _cache_set: truncate the destination, then write
the serialized payload. -/
def Top.cache_set_ops (v : JVal) : List FsOp :=
  [FsOp.openTruncate, FsOp.writeChunk (JVal.dumps v)]

/-- The file contents visible to a concurrent reader before, between and after
the operations of a write sequence. -/
def fileStates (old : String) (ops : List FsOp) : List String :=
  List.scanl applyOp old ops

section Helpers

@[simp]
lemma countAttempts_nil : countAttempts [] = 0 := rfl

@[simp]
lemma countAttempts_cons (e : Ev) (l : List Ev) :
    countAttempts (e :: l) = (if e.isAttempt then 1 else 0) + countAttempts l := by
  simp only [countAttempts, List.filter_cons]
  split <;> simp [Nat.add_comm]

@[simp]
lemma countAttempts_append (l1 l2 : List Ev) :
    countAttempts (l1 ++ l2) = countAttempts l1 + countAttempts l2 := by
  simp [countAttempts, List.filter_append]

@[simp]
lemma sleeps_nil : sleeps [] = [] := rfl

@[simp]
lemma sleeps_cons_rate (d : ℚ) (l : List Ev) :
    sleeps (Ev.rateSleep d :: l) = sleeps l := rfl

@[simp]
lemma sleeps_cons_attempt (n : Nat) (l : List Ev) :
    sleeps (Ev.netAttempt n :: l) = sleeps l := rfl

@[simp]
lemma sleeps_cons_backoff (d : ℚ) (l : List Ev) :
    sleeps (Ev.backoffSleep d :: l) = d :: sleeps l := rfl

@[simp]
lemma sleeps_cons_write (k : String) (v : JVal) (l : List Ev) :
    sleeps (Ev.cacheWrite k v :: l) = sleeps l := rfl

@[simp]
lemma sleeps_cons_writeFail (k : String) (l : List Ev) :
    sleeps (Ev.cacheWriteFail k :: l) = sleeps l := rfl

@[simp]
lemma sleeps_append (l1 l2 : List Ev) :
    sleeps (l1 ++ l2) = sleeps l1 ++ sleeps l2 := by
  simp [sleeps, List.filterMap_append]

lemma assocFind_assocSet_self (l : List (String × CacheFile)) (k : String)
    (f : CacheFile) : assocFind (assocSet l k f) k = some f := by
  induction l with
  | nil => simp [assocFind, assocSet]
  | cons hd tl ih =>
    obtain ⟨k2, g⟩ := hd
    by_cases h : k2 = k
    · simp [assocFind, assocSet, h]
    · simp [assocFind, assocSet, h, ih]

lemma Top.apply_rate_limit_spec (rpm : ℚ) (s : SvcState) :
    countAttempts (Top.apply_rate_limit rpm s).2 = 0 ∧
    sleeps (Top.apply_rate_limit rpm s).2 = [] ∧
    (Top.apply_rate_limit rpm s).1.cache = s.cache ∧
    (Top.apply_rate_limit rpm s).1.lastTs = s.lastTs := by
  simp only [Top.apply_rate_limit]
  split <;> simp [Ev.isAttempt]

lemma Nest.rate_limit_spec (rpm : ℚ) (s : SvcState) :
    (Nest.rate_limit rpm s).1.lastTs = (Nest.rate_limit rpm s).1.now ∧
    s.lastTs + 60 / rpm ≤ (Nest.rate_limit rpm s).1.now ∧
    (Nest.rate_limit rpm s).1.cache = s.cache ∧
    countAttempts (Nest.rate_limit rpm s).2 = 0 ∧
    sleeps (Nest.rate_limit rpm s).2 = [] := by
  simp only [Nest.rate_limit]
  split <;> rename_i h
  · exact ⟨by simp, by simp; linarith, by simp, by simp [Ev.isAttempt], by simp⟩
  · exact ⟨by simp, by simp; linarith, by simp, by simp, by simp⟩

lemma Nest.run_waits_le (rpm : ℚ) :
    ∀ (idles : List ℚ) (s : SvcState), (∀ d ∈ idles, 0 ≤ d) → s.lastTs = s.now →
      s.now + idles.length * (60 / rpm) ≤ (Nest.run_waits rpm idles s).now := by
  intro idles
  induction idles with
  | nil => intro s _ _; simp [Nest.run_waits]
  | cons idle rest ih =>
    intro s hnn hinv
    simp only [Nest.run_waits]
    have h0 : 0 ≤ idle := hnn idle (by simp)
    have hspec := Nest.rate_limit_spec rpm { s with now := s.now + idle }
    have hrec := ih (Nest.rate_limit rpm { s with now := s.now + idle }).1
      (fun d hd => hnn d (by simp [hd])) hspec.1
    have hstep : s.lastTs + 60 / rpm ≤
        (Nest.rate_limit rpm { s with now := s.now + idle }).1.now := hspec.2.1
    simp only [List.length_cons]
    push_cast
    linarith [hinv, hstep, hrec]

end Helpers

section SortLemmas

lemma string_eq_of_data {s t : String} (h : s.data = t.data) : s = t := by
  cases s; cases t; simp only at h; rw [h]

lemma normFields_eq_map (l : List (String × JVal)) :
    normFields l = l.map (fun p => (p.1, p.2.normalize)) := by
  induction l with
  | nil => rfl
  | cons hd tl ih => obtain ⟨k, v⟩ := hd; simp [normFields, ih]

lemma sortByKey_eq_of_perm {l1 l2 : List (String × JVal)} (hp : l1.Perm l2)
    (hnd : (l1.map Prod.fst).Nodup) : sortByKey l1 = sortByKey l2 := by
  have hperm : (sortByKey l1).Perm (sortByKey l2) :=
    (List.perm_insertionSort keyLe l1).trans
      (hp.trans (List.perm_insertionSort keyLe l2).symm)
  have hs1 : List.Sorted keyLe (sortByKey l1) := List.sorted_insertionSort keyLe l1
  have hs2 : List.Sorted keyLe (sortByKey l2) := List.sorted_insertionSort keyLe l2
  have hnd1 : ((sortByKey l1).map Prod.fst).Nodup :=
    (((List.perm_insertionSort keyLe l1).map Prod.fst).nodup_iff).mpr hnd
  have hnd2' : (l2.map Prod.fst).Nodup := ((hp.map Prod.fst).nodup_iff).mp hnd
  have hnd2 : ((sortByKey l2).map Prod.fst).Nodup :=
    (((List.perm_insertionSort keyLe l2).map Prod.fst).nodup_iff).mpr hnd2'
  have hstrict : ∀ l : List (String × JVal), List.Sorted keyLe l →
      (l.map Prod.fst).Nodup →
      List.Pairwise (fun a b : String × JVal => a.1.data < b.1.data) l := by
    intro l hs hn
    have hne : List.Pairwise (fun a b : String × JVal => a.1 ≠ b.1) l :=
      List.pairwise_map.mp hn
    exact (List.Pairwise.and hs hne).imp
      (fun hab => lt_of_le_of_ne hab.1
        (fun hdata => hab.2 (string_eq_of_data hdata)))
  haveI : IsAntisymm (String × JVal) (fun a b : String × JVal => a.1.data < b.1.data) :=
    ⟨fun a b h1 h2 => absurd (lt_trans h1 h2) (lt_irrefl _)⟩
  exact List.eq_of_perm_of_sorted hperm (hstrict _ hs1 hnd1) (hstrict _ hs2 hnd2)

lemma jsonDumpsSorted_obj_perm {p1 p2 : List (String × JVal)} (hp : p1.Perm p2)
    (hnd : (p1.map Prod.fst).Nodup) :
    jsonDumpsSorted (JVal.obj p1) = jsonDumpsSorted (JVal.obj p2) := by
  have hmap : (normFields p1).Perm (normFields p2) := by
    rw [normFields_eq_map, normFields_eq_map]; exact hp.map _
  have hnd' : ((normFields p1).map Prod.fst).Nodup := by
    rw [normFields_eq_map, List.map_map]
    simpa [Function.comp] using hnd
  show (JVal.obj (sortByKey (normFields p1))).dumps
      = (JVal.obj (sortByKey (normFields p2))).dumps
  rw [sortByKey_eq_of_perm hmap hnd']

end SortLemmas

section LoopLemmas

lemma range_succ_shift (B : ℚ) (fuel tc : Nat) :
    (List.range (fuel + 1)).map (fun i => backoffDelay B (tc + 1 + i)) =
      backoffDelay B (tc + 1) ::
        (List.range fuel).map (fun i => backoffDelay B (tc + 1 + 1 + i)) := by
  rw [List.range_succ_eq_map]
  simp only [List.map_cons, List.map_map]
  have harg : tc + 1 + 0 = tc + 1 := by omega
  rw [harg]
  have hfun : (fun i => backoffDelay B (tc + 1 + i)) ∘ Nat.succ
      = fun i => backoffDelay B (tc + 1 + 1 + i) := by
    funext i
    simp only [Function.comp]
    congr 1
    omega
  rw [hfun]

end LoopLemmas

lemma Top.top_loop_all_retryable (cw uc : Bool) (net : Nat → Outcome) (key : String)
    (hr : ∀ n, (net n).retryable = true) :
    ∀ (fuel tc : Nat) (s : SvcState),
      (Top.loop cw uc net key fuel tc s).result = FetchResult.runtimeError ∧
      countAttempts (Top.loop cw uc net key fuel tc s).evs = fuel ∧
      sleeps (Top.loop cw uc net key fuel tc s).evs =
        (List.range fuel).map (fun i => backoffDelay Top.BACKOFF_FACTOR (tc + 1 + i)) ∧
      (Top.loop cw uc net key fuel tc s).state.cache = s.cache := by
  intro fuel
  induction fuel with
  | zero => intro tc s; exact ⟨rfl, rfl, rfl, rfl⟩
  | succ fuel ih =>
    intro tc s
    have hrn := hr (tc + 1)
    rw [range_succ_shift]
    cases hnet : net (tc + 1) with
    | transportError =>
      simp only [Top.loop, hnet]
      obtain ⟨h1, h2, h3, h4⟩ := ih (tc + 1)
        { s with now := s.now + backoffDelay Top.BACKOFF_FACTOR (tc + 1) }
      refine ⟨h1, ?_, ?_, h4⟩
      · simp [Ev.isAttempt, h2, Nat.add_comm]
      · simp [h3]
    | status code body =>
      rw [hnet] at hrn
      simp only [Outcome.retryable, Bool.or_eq_true, beq_iff_eq] at hrn
      rcases hrn with h | h <;> subst h <;>
        simp only [Top.loop, hnet] <;> norm_num <;>
        · obtain ⟨h1, h2, h3, h4⟩ := ih (tc + 1) _
          refine ⟨h1, ?_, ?_, h4⟩
          · simp [Ev.isAttempt, h2, Nat.add_comm]
          · simp [h3]

lemma Nest.nest_loop_all_retryable (cw : Bool) (net : Nat → Outcome) (key : String)
    (hr : ∀ n, (net n).retryable = true) :
    ∀ (fuel tc : Nat) (s : SvcState),
      (Nest.loop cw net key fuel tc s).result = FetchResult.runtimeError ∧
      countAttempts (Nest.loop cw net key fuel tc s).evs = fuel ∧
      sleeps (Nest.loop cw net key fuel tc s).evs =
        (List.range fuel).map (fun i => backoffDelay Nest.BACKOFF (tc + 1 + i)) ∧
      (Nest.loop cw net key fuel tc s).state.cache = s.cache := by
  intro fuel
  induction fuel with
  | zero => intro tc s; exact ⟨rfl, rfl, rfl, rfl⟩
  | succ fuel ih =>
    intro tc s
    have hrn := hr (tc + 1)
    rw [range_succ_shift]
    cases hnet : net (tc + 1) with
    | transportError =>
      simp only [Nest.loop, hnet]
      obtain ⟨h1, h2, h3, h4⟩ := ih (tc + 1)
        { s with now := s.now + backoffDelay Nest.BACKOFF (tc + 1) }
      refine ⟨h1, ?_, ?_, h4⟩
      · simp [Ev.isAttempt, h2, Nat.add_comm]
      · simp [h3]
    | status code body =>
      rw [hnet] at hrn
      simp only [Outcome.retryable, Bool.or_eq_true, beq_iff_eq] at hrn
      rcases hrn with h | h <;> subst h <;>
        simp only [Nest.loop, hnet] <;> norm_num <;>
        · obtain ⟨h1, h2, h3, h4⟩ := ih (tc + 1) _
          refine ⟨h1, ?_, ?_, h4⟩
          · simp [Ev.isAttempt, h2, Nat.add_comm]
          · simp [h3]

lemma Nest.loop_write_fails (net : Nat → Outcome) (key : String) (v : JVal)
    (hr : ∀ n, net n = Outcome.status 200 v) :
    ∀ (fuel tc : Nat) (s : SvcState),
      (Nest.loop true net key fuel tc s).result = FetchResult.runtimeError ∧
      countAttempts (Nest.loop true net key fuel tc s).evs = fuel := by
  intro fuel
  induction fuel with
  | zero => intro tc s; exact ⟨rfl, rfl⟩
  | succ fuel ih =>
    intro tc s
    simp only [Nest.loop, hr (tc + 1)]
    norm_num
    obtain ⟨h1, h2⟩ := ih (tc + 1) _
    refine ⟨h1, ?_⟩
    simp [Ev.isAttempt, h2, Nat.add_comm]

/-- C1 (code_bug): the claim says a status other than 200/429/503 (e.g. 404)
fails the fetch immediately with an UpstreamError carrying the status and no
further attempts or backoff sleeps.  The comment in the code itself says "log and
raise", but the HTTPError raised by resp.raise_for_status() is a subclass of
requests.RequestException and is caught by the except handler of the loop itself, so
a constant-404 upstream is retried with backoff through all 5 attempts and
then fails with the generic RuntimeError; the nested service retries every
non-200 status by design.  This theorem evaluates both services at the
failing input: a fetch whose every attempt returns HTTP 404. -/
theorem C1_fatal_short_circuit_code_bug :
    (Top.get_json (fun _ => "k") 21600 30 false (fun _ => Outcome.status 404 JVal.null)
        "" "/x" [] true ⟨-1000, 0, []⟩).result = FetchResult.runtimeError ∧
    countAttempts (Top.get_json (fun _ => "k") 21600 30 false
        (fun _ => Outcome.status 404 JVal.null) "" "/x" [] true ⟨-1000, 0, []⟩).evs = 5 ∧
    sleeps (Top.get_json (fun _ => "k") 21600 30 false
        (fun _ => Outcome.status 404 JVal.null) "" "/x" [] true ⟨-1000, 0, []⟩).evs =
      [3/2, 9/4, 27/8, 81/16, 243/32] ∧
    (Nest.get_json (fun _ => "k") false (fun _ => Outcome.status 404 JVal.null)
        "/x" [] ⟨-1000, 0, []⟩).result = FetchResult.runtimeError ∧
    countAttempts (Nest.get_json (fun _ => "k") false
        (fun _ => Outcome.status 404 JVal.null) "/x" [] ⟨-1000, 0, []⟩).evs = 5 := by
  refine ⟨?_, ?_, ?_, ?_, ?_⟩ <;>
    norm_num [Top.get_json, Top.request_key, Top.make_cache_key, Top.resolve_url,
      Top.cache_get, assocFind, Top.apply_rate_limit, Top.loop, Top.MAX_RETRIES,
      Top.BACKOFF_FACTOR, backoffDelay, Nest.get_json, Nest.cache_key, Nest.cache_get,
      Nest.rate_limit, Nest.loop, Nest.MAX_RETRIES, Nest.BACKOFF, Nest.RATE_LIMIT,
      Ev.isAttempt]

/-- C2 (counterexample): the claim says every Wait records the new timestamp
before returning and N sequential Wait calls take at least
(N-1) * (60 / requests_per_minute) seconds.  In the top-level service,
_apply_rate_limit sleeps (here 2 seconds, so a call did block) but leaves
_last_request_ts unchanged, so three back-to-back calls complete 2 seconds
after the start, strictly faster than the claimed (3-1) * 2 = 4 seconds. -/
theorem C2_wait_spacing_counterexample :
    (Top.apply_rate_limit 30 ⟨0, 0, []⟩).2 = [Ev.rateSleep 2] ∧
    (Top.apply_rate_limit 30 ⟨0, 0, []⟩).1.lastTs = 0 ∧
    (Top.seq_waits 30 3 ⟨0, 0, []⟩).now = 2 ∧
    ((2 : ℚ) < (3 - 1) * (60 / 30)) := by
  refine ⟨?_, ?_, ?_, by norm_num⟩ <;>
    norm_num [Top.apply_rate_limit, Top.seq_waits]

/-- C2 (amended): _rate_limit in the nested service satisfies the claim: it
records the completion timestamp in last_ts before returning, blocks until at
least 60 / requests_per_minute seconds after the previously recorded
timestamp, and N sequential calls (one rate_limit followed by idles.length
further calls, with arbitrary nonnegative idle time in between) finish at
least (N-1) * (60 / requests_per_minute) seconds after the first completion.
The top-level _apply_rate_limit only sleeps; the timestamp it compares
against is recorded after each network request, not by the limiter. -/
theorem C2_wait_spacing_amended :
    ∀ (rpm : ℚ) (s : SvcState) (idles : List ℚ), (∀ d ∈ idles, 0 ≤ d) →
      (Nest.rate_limit rpm s).1.lastTs = (Nest.rate_limit rpm s).1.now ∧
      s.lastTs + 60 / rpm ≤ (Nest.rate_limit rpm s).1.now ∧
      (Nest.rate_limit rpm s).1.now + idles.length * (60 / rpm) ≤
        (Nest.run_waits rpm idles (Nest.rate_limit rpm s).1).now := by
  intro rpm s idles hnn
  have hspec := Nest.rate_limit_spec rpm s
  exact ⟨hspec.1, hspec.2.1, Nest.run_waits_le rpm idles _ hnn hspec.1⟩

/-- C2 witness: the amended theorem applied to rpm 30, an initial state with
both clocks at 0, and two further calls with no idle time. -/
theorem C2_wait_spacing_witness :
    (Nest.rate_limit 30 ⟨0, 0, []⟩).1.lastTs = (Nest.rate_limit 30 ⟨0, 0, []⟩).1.now ∧
    (0 : ℚ) + 60 / 30 ≤ (Nest.rate_limit 30 ⟨0, 0, []⟩).1.now ∧
    (Nest.rate_limit 30 ⟨0, 0, []⟩).1.now + (([(0 : ℚ), 0]).length) * (60 / 30) ≤
      (Nest.run_waits 30 [0, 0] (Nest.rate_limit 30 ⟨0, 0, []⟩).1).now :=
  C2_wait_spacing_amended 30 ⟨0, 0, []⟩ [0, 0]
    (by intro d hd; simp at hd; simp [hd])

/-- C3 (counterexample): in the nested service a cache-write failure is not
swallowed: _cache_set has no exception handler, so the failure is caught by
the except handler of the retry loop and treated like a failed attempt.  With an
upstream that answers 200 on every attempt and a cache write that always
fails, get_json performs all 5 network attempts and raises RuntimeError; the
payload produced by the successful first attempt is never returned. -/
theorem C3_cache_write_swallowed_counterexample :
    (Nest.get_json (fun _ => "k") true
        (fun _ => Outcome.status 200 (JVal.obj [("a", JVal.null)]))
        "/x" [] ⟨-1000, 0, []⟩).result = FetchResult.runtimeError ∧
    countAttempts (Nest.get_json (fun _ => "k") true
        (fun _ => Outcome.status 200 (JVal.obj [("a", JVal.null)]))
        "/x" [] ⟨-1000, 0, []⟩).evs = 5 := by
  constructor <;>
    norm_num [Nest.get_json, Nest.cache_key, Nest.cache_get, assocFind,
      Nest.rate_limit, Nest.loop, Nest.MAX_RETRIES, Nest.BACKOFF, Nest.RATE_LIMIT,
      backoffDelay, Ev.isAttempt, JVal.isTruthy]

/-- C3 (amended): in the top-level service the claim holds: _cache_set
catches and logs its own write failure, so a fetch whose first attempt
returns 200 with payload v still returns v after exactly one network attempt
and with no backoff sleep even when the cache write fails.  In the nested
service a cache-write failure is instead caught by the attempt loop and
treated as a retryable failure: with every attempt returning 200 and a
persistently failing cache write, the fetch exhausts all 5 attempts and
raises RuntimeError instead of returning the payload. -/
theorem C3_cache_write_swallowed_amended :
    (∀ (hash : String → String) (ttl rpm : ℚ) (net : Nat → Outcome)
        (base path : String) (params : List (String × JVal)) (s : SvcState) (v : JVal),
      net 1 = Outcome.status 200 v →
      Top.cache_get ttl s.cache (Top.request_key hash base path params) s.now = none →
      (Top.get_json hash ttl rpm true net base path params true s).result = FetchResult.ok v ∧
      countAttempts (Top.get_json hash ttl rpm true net base path params true s).evs = 1 ∧
      sleeps (Top.get_json hash ttl rpm true net base path params true s).evs = []) ∧
    (∀ (hash : String → String) (net : Nat → Outcome) (path : String)
        (params : List (String × JVal)) (s : SvcState) (v : JVal),
      (∀ n, net n = Outcome.status 200 v) →
      Nest.cache_get s.cache (Nest.cache_key hash path params) s.now = Except.ok none →
      (Nest.get_json hash true net path params s).result = FetchResult.runtimeError ∧
      countAttempts (Nest.get_json hash true net path params s).evs = 5) := by
  constructor
  · intro hash ttl rpm net base path params s v hnet hmiss
    have hrate := Top.apply_rate_limit_spec rpm s
    refine ⟨?_, ?_, ?_⟩ <;>
      simp [Top.get_json, Top.loop, Top.MAX_RETRIES, hmiss, hnet, Ev.isAttempt,
        hrate.1, hrate.2.1]
  · intro hash net path params s v hnet hmiss
    have hrate := Nest.rate_limit_spec Nest.RATE_LIMIT s
    have hloop := Nest.loop_write_fails net (Nest.cache_key hash path params) v hnet
      Nest.MAX_RETRIES 0 (Nest.rate_limit Nest.RATE_LIMIT s).1
    constructor
    · simpa [Nest.get_json, hmiss] using hloop.1
    · have h5 : Nest.MAX_RETRIES = 5 := rfl
      rw [h5] at hloop
      simp [Nest.get_json, hmiss, hrate.2.2.2.1, hloop.2, h5]

/-- C3 witness: the top-level half of the amended theorem at a concrete
input: failing cache write, first attempt 200 with a nonempty object. -/
theorem C3_cache_write_swallowed_witness :
    (Top.get_json (fun _ => "k") 21600 30 true
        (fun _ => Outcome.status 200 (JVal.obj [("a", JVal.null)]))
        "" "/x" [] true ⟨-1000, 0, []⟩).result = FetchResult.ok (JVal.obj [("a", JVal.null)]) ∧
    countAttempts (Top.get_json (fun _ => "k") 21600 30 true
        (fun _ => Outcome.status 200 (JVal.obj [("a", JVal.null)]))
        "" "/x" [] true ⟨-1000, 0, []⟩).evs = 1 ∧
    sleeps (Top.get_json (fun _ => "k") 21600 30 true
        (fun _ => Outcome.status 200 (JVal.obj [("a", JVal.null)]))
        "" "/x" [] true ⟨-1000, 0, []⟩).evs = [] :=
  C3_cache_write_swallowed_amended.1 (fun _ => "k") 21600 30
    (fun _ => Outcome.status 200 (JVal.obj [("a", JVal.null)]))
    "" "/x" [] ⟨-1000, 0, []⟩ (JVal.obj [("a", JVal.null)]) rfl rfl

/-- C4 (confirmed): with MAX_RETRIES = 5 fixed in both source files, a fetch
whose every attempt is retryable in the sense of the specification (HTTP 429, HTTP
503, or a transport-level failure) performs exactly 5 network attempts, then
fails with the RuntimeError modelling RetryExhausted; no payload is returned
and the cache is left unchanged.  Stated for both services, starting from a
cache miss. -/
theorem C4_retry_ceiling :
    (∀ (hash : String → String) (ttl rpm : ℚ) (cw : Bool) (net : Nat → Outcome)
        (base path : String) (params : List (String × JVal)) (s : SvcState),
      (∀ n, (net n).retryable = true) →
      Top.cache_get ttl s.cache (Top.request_key hash base path params) s.now = none →
      (Top.get_json hash ttl rpm cw net base path params true s).result = FetchResult.runtimeError ∧
      countAttempts (Top.get_json hash ttl rpm cw net base path params true s).evs = 5 ∧
      (Top.get_json hash ttl rpm cw net base path params true s).state.cache = s.cache) ∧
    (∀ (hash : String → String) (cw : Bool) (net : Nat → Outcome) (path : String)
        (params : List (String × JVal)) (s : SvcState),
      (∀ n, (net n).retryable = true) →
      Nest.cache_get s.cache (Nest.cache_key hash path params) s.now = Except.ok none →
      (Nest.get_json hash cw net path params s).result = FetchResult.runtimeError ∧
      countAttempts (Nest.get_json hash cw net path params s).evs = 5 ∧
      (Nest.get_json hash cw net path params s).state.cache = s.cache) := by
  constructor
  · intro hash ttl rpm cw net base path params s hr hmiss
    have hrate := Top.apply_rate_limit_spec rpm s
    have hloop := Top.top_loop_all_retryable cw true net
      (Top.request_key hash base path params) hr Top.MAX_RETRIES 0
      (Top.apply_rate_limit rpm s).1
    have h5 : Top.MAX_RETRIES = 5 := rfl
    rw [h5] at hloop
    refine ⟨?_, ?_, ?_⟩
    · simpa [Top.get_json, hmiss, h5] using hloop.1
    · simp [Top.get_json, hmiss, hrate.1, hloop.2.1, h5]
    · simp [Top.get_json, hmiss, h5]
      rw [hloop.2.2.2, hrate.2.2.1]
  · intro hash cw net path params s hr hmiss
    have hrate := Nest.rate_limit_spec Nest.RATE_LIMIT s
    have hloop := Nest.nest_loop_all_retryable cw net
      (Nest.cache_key hash path params) hr Nest.MAX_RETRIES 0
      (Nest.rate_limit Nest.RATE_LIMIT s).1
    have h5 : Nest.MAX_RETRIES = 5 := rfl
    rw [h5] at hloop
    refine ⟨?_, ?_, ?_⟩
    · simpa [Nest.get_json, hmiss, h5] using hloop.1
    · simp [Nest.get_json, hmiss, hrate.2.2.2.1, hloop.2.1, h5]
    · simp [Nest.get_json, hmiss, h5]
      rw [hloop.2.2.2, hrate.2.2.1]

/-- C4 witness: both halves of the retry-ceiling theorem at a concrete input:
every attempt returns HTTP 503, the cache starts empty. -/
theorem C4_retry_ceiling_witness :
    ((Top.get_json (fun _ => "k") 21600 30 false (fun _ => Outcome.status 503 JVal.null)
        "" "/x" [] true ⟨-1000, 0, []⟩).result = FetchResult.runtimeError ∧
     countAttempts (Top.get_json (fun _ => "k") 21600 30 false
        (fun _ => Outcome.status 503 JVal.null) "" "/x" [] true ⟨-1000, 0, []⟩).evs = 5 ∧
     (Top.get_json (fun _ => "k") 21600 30 false (fun _ => Outcome.status 503 JVal.null)
        "" "/x" [] true ⟨-1000, 0, []⟩).state.cache = []) ∧
    ((Nest.get_json (fun _ => "k") false (fun _ => Outcome.status 503 JVal.null)
        "/x" [] ⟨-1000, 0, []⟩).result = FetchResult.runtimeError ∧
     countAttempts (Nest.get_json (fun _ => "k") false
        (fun _ => Outcome.status 503 JVal.null) "/x" [] ⟨-1000, 0, []⟩).evs = 5 ∧
     (Nest.get_json (fun _ => "k") false (fun _ => Outcome.status 503 JVal.null)
        "/x" [] ⟨-1000, 0, []⟩).state.cache = []) :=
  ⟨C4_retry_ceiling.1 (fun _ => "k") 21600 30 false (fun _ => Outcome.status 503 JVal.null)
      "" "/x" [] ⟨-1000, 0, []⟩ (fun _ => rfl) rfl,
   C4_retry_ceiling.2 (fun _ => "k") false (fun _ => Outcome.status 503 JVal.null)
      "/x" [] ⟨-1000, 0, []⟩ (fun _ => rfl) rfl⟩

/-- C5 (counterexample): the claim says a Lookup of an unreadable or corrupt
entry returns found=false rather than raising.  In the nested service,
_cache_get opens and parses the file with no exception handler, so a fresh
corrupt entry raises out of the lookup (modelled as Except.error) instead of
being treated as absent. -/
theorem C5_cache_freshness_counterexample :
    Nest.cache_get [("k", ⟨0, FileContent.corrupt⟩)] "k" 0 = Except.error () := by
  norm_num [Nest.cache_get, assocFind, Nest.TTL]

/-- C5 (amended): the freshness window holds in both services: a payload
stored at time T is returned by a lookup at T + ttl - 1 and missed at
T + ttl + 1 (the age test is strict: age > ttl).  The corrupt-entry clause
holds only in the top-level service, whose _cache_get catches every read and
parse failure and returns None; the nested _cache_get raises on a fresh
corrupt entry (see the counterexample). -/
theorem C5_cache_freshness_amended :
    (∀ (ttl : ℚ) (cache : List (String × CacheFile)) (key : String) (v : JVal) (T : ℚ),
      Top.cache_get ttl (assocSet cache key ⟨T, FileContent.good v⟩) key (T + ttl - 1) = some v) ∧
    (∀ (ttl : ℚ) (cache : List (String × CacheFile)) (key : String) (v : JVal) (T : ℚ),
      Top.cache_get ttl (assocSet cache key ⟨T, FileContent.good v⟩) key (T + ttl + 1) = none) ∧
    (∀ (ttl : ℚ) (cache : List (String × CacheFile)) (key : String) (now : ℚ) (f : CacheFile),
      assocFind cache key = some f → f.content = FileContent.corrupt →
      Top.cache_get ttl cache key now = none) ∧
    (∀ (cache : List (String × CacheFile)) (key : String) (v : JVal) (T : ℚ),
      Nest.cache_get (assocSet cache key ⟨T, FileContent.good v⟩) key (T + Nest.TTL - 1) =
        Except.ok (some v)) ∧
    (∀ (cache : List (String × CacheFile)) (key : String) (v : JVal) (T : ℚ),
      Nest.cache_get (assocSet cache key ⟨T, FileContent.good v⟩) key (T + Nest.TTL + 1) =
        Except.ok none) := by
  refine ⟨?_, ?_, ?_, ?_, ?_⟩
  · intro ttl cache key v T
    simp only [Top.cache_get, assocFind_assocSet_self]
    rw [if_neg (by linarith)]
  · intro ttl cache key v T
    simp only [Top.cache_get, assocFind_assocSet_self]
    rw [if_pos (by linarith)]
  · intro ttl cache key now f hfind hc
    obtain ⟨mt, c⟩ := f
    cases c with
    | good v => exact absurd hc (by simp)
    | corrupt =>
      simp only [Top.cache_get, hfind]
      split <;> rfl
  · intro cache key v T
    simp only [Nest.cache_get, assocFind_assocSet_self]
    rw [if_neg (by linarith)]
  · intro cache key v T
    simp only [Nest.cache_get, assocFind_assocSet_self]
    rw [if_pos (by linarith)]

/-- C5 witness: the amended theorem at concrete inputs: ttl 10, a payload
stored at time 0, and a corrupt file under key "k". -/
theorem C5_cache_freshness_witness :
    Top.cache_get 10 (assocSet [] "k" ⟨0, FileContent.good JVal.null⟩) "k" (0 + 10 - 1) =
      some JVal.null ∧
    Top.cache_get 10 (assocSet [] "k" ⟨0, FileContent.good JVal.null⟩) "k" (0 + 10 + 1) = none ∧
    Top.cache_get 10 [("k", ⟨0, FileContent.corrupt⟩)] "k" 0 = none ∧
    Nest.cache_get (assocSet [] "k" ⟨0, FileContent.good JVal.null⟩) "k" (0 + Nest.TTL - 1) =
      Except.ok (some JVal.null) ∧
    Nest.cache_get (assocSet [] "k" ⟨0, FileContent.good JVal.null⟩) "k" (0 + Nest.TTL + 1) =
      Except.ok none :=
  ⟨C5_cache_freshness_amended.1 10 [] "k" JVal.null 0,
   C5_cache_freshness_amended.2.1 10 [] "k" JVal.null 0,
   C5_cache_freshness_amended.2.2.1 10 [("k", ⟨0, FileContent.corrupt⟩)] "k" 0
     ⟨0, FileContent.corrupt⟩ rfl rfl,
   C5_cache_freshness_amended.2.2.2.1 [] "k" JVal.null 0,
   C5_cache_freshness_amended.2.2.2.2 [] "k" JVal.null 0⟩

/-- C6 (confirmed): both services derive the cache key by hashing the resolved
URL together with json.dumps(params, sort_keys=True).  For any hash function,
any URL, and any two parameter lists that are permutations of each other with
no duplicate keys (as in a Python dict), the computed keys are identical: the
serialization sorts the parameter set before hashing.  The hash itself is
hashlib.sha256 hexdigest in both files, a 256-bit cryptographic digest; here
it is an arbitrary function parameter, so the statement holds for it in
particular. -/
theorem C6_key_determinism :
    ∀ (h : String → String) (url path : String) (p1 p2 : List (String × JVal)),
      p1.Perm p2 → (p1.map Prod.fst).Nodup →
      Top.make_cache_key h url p1 = Top.make_cache_key h url p2 ∧
      Nest.cache_key h path p1 = Nest.cache_key h path p2 := by
  intro h url path p1 p2 hp hnd
  have hdump := jsonDumpsSorted_obj_perm hp hnd
  constructor
  · have hemp : p1.isEmpty = p2.isEmpty := by
      cases p1 <;> cases p2 <;> simp_all
    simp only [Top.make_cache_key]
    rw [hemp, hdump]
  · simp only [Nest.cache_key]
    rw [hdump]

/-- C6 witness: the determinism theorem at a concrete pair of two-field
parameter mappings differing only in insertion order. -/
theorem C6_key_determinism_witness :
    Top.make_cache_key id "u" [("b", JVal.num 1), ("a", JVal.num 2)] =
      Top.make_cache_key id "u" [("a", JVal.num 2), ("b", JVal.num 1)] ∧
    Nest.cache_key id "/p" [("b", JVal.num 1), ("a", JVal.num 2)] =
      Nest.cache_key id "/p" [("a", JVal.num 2), ("b", JVal.num 1)] :=
  C6_key_determinism id "u" "/p" _ _
    (List.Perm.swap ("a", JVal.num 2) ("b", JVal.num 1) []) (by decide)

/-- C7 (counterexample): the claim says any fetch whose cache lookup hits a
fresh entry returns it immediately with no network I/O.  In the nested
service the guard is `if cached:`, so a fresh entry whose payload is the
falsy empty object is found by the lookup and then ignored: the fetch
performs a network attempt anyway. -/
theorem C7_cache_hit_frame_counterexample :
    Nest.cache_get [("k", ⟨0, FileContent.good (JVal.obj [])⟩)] "k" 0 =
      Except.ok (some (JVal.obj [])) ∧
    countAttempts (Nest.get_json (fun _ => "k") false
        (fun _ => Outcome.status 200 (JVal.obj [("x", JVal.null)]))
        "/p" [] ⟨0, 0, [("k", ⟨0, FileContent.good (JVal.obj [])⟩)]⟩).evs = 1 := by
  constructor
  · norm_num [Nest.cache_get, assocFind, Nest.TTL]
  · norm_num [Nest.get_json, Nest.cache_key, Nest.cache_get, assocFind, Nest.TTL,
      Nest.rate_limit, Nest.loop, Nest.MAX_RETRIES, Nest.RATE_LIMIT, Nest.BACKOFF,
      backoffDelay, JVal.isTruthy, Ev.isAttempt]

/-- C7 (amended): a fetch with use_cache=true whose lookup hits a fresh entry
returns the cached payload with no events (no network attempt, no rate-limit
interaction, no sleep) and a completely unchanged state — unconditionally in
the top-level service, and in the nested service under the extra condition
that the cached payload is truthy (the nested guard `if cached:` treats a
fresh falsy payload as a miss, see the counterexample and C10). -/
theorem C7_cache_hit_frame :
    (∀ (hash : String → String) (ttl rpm : ℚ) (cw : Bool) (net : Nat → Outcome)
        (base path : String) (params : List (String × JVal)) (s : SvcState) (v : JVal),
      Top.cache_get ttl s.cache (Top.request_key hash base path params) s.now = some v →
      Top.get_json hash ttl rpm cw net base path params true s = ⟨s, [], FetchResult.ok v⟩) ∧
    (∀ (hash : String → String) (cw : Bool) (net : Nat → Outcome) (path : String)
        (params : List (String × JVal)) (s : SvcState) (v : JVal),
      Nest.cache_get s.cache (Nest.cache_key hash path params) s.now = Except.ok (some v) →
      v.isTruthy = true →
      Nest.get_json hash cw net path params s = ⟨s, [], FetchResult.ok v⟩) := by
  constructor
  · intro hash ttl rpm cw net base path params s v hhit
    simp [Top.get_json, hhit]
  · intro hash cw net path params s v hhit htruthy
    simp [Nest.get_json, hhit, htruthy]

/-- C7 witness: both halves of the amended theorem at a concrete fresh cache
hit with a truthy payload. -/
theorem C7_cache_hit_frame_witness :
    Top.get_json (fun _ => "k") 10 30 false (fun _ => Outcome.transportError)
        "" "/x" [] true ⟨0, 0, [("k", ⟨0, FileContent.good (JVal.bool true)⟩)]⟩ =
      ⟨⟨0, 0, [("k", ⟨0, FileContent.good (JVal.bool true)⟩)]⟩, [],
        FetchResult.ok (JVal.bool true)⟩ ∧
    Nest.get_json (fun _ => "k") false (fun _ => Outcome.transportError)
        "/x" [] ⟨0, 0, [("k", ⟨0, FileContent.good (JVal.bool true)⟩)]⟩ =
      ⟨⟨0, 0, [("k", ⟨0, FileContent.good (JVal.bool true)⟩)]⟩, [],
        FetchResult.ok (JVal.bool true)⟩ :=
  ⟨C7_cache_hit_frame.1 (fun _ => "k") 10 30 false (fun _ => Outcome.transportError)
      "" "/x" [] ⟨0, 0, [("k", ⟨0, FileContent.good (JVal.bool true)⟩)]⟩ (JVal.bool true)
      (by norm_num [Top.cache_get, Top.request_key, Top.make_cache_key, Top.resolve_url,
        assocFind]),
   C7_cache_hit_frame.2 (fun _ => "k") false (fun _ => Outcome.transportError)
      "/x" [] ⟨0, 0, [("k", ⟨0, FileContent.good (JVal.bool true)⟩)]⟩ (JVal.bool true)
      (by norm_num [Nest.cache_get, Nest.cache_key, assocFind, Nest.TTL]) rfl⟩

/-- C8 (confirmed): in a fetch from a cache miss whose attempts are all
retryable, the backoff sleeps recorded in order are exactly
backoff_base ^ 1, ..., backoff_base ^ 5 — the delay slept after retryable
attempt n is backoff_base ^ n with attempt numbering starting at 1 — in both
services; and with backoff_base = 1.5 = 3/2 the delay schedule
backoffDelay (3/2) n is non-decreasing in n. -/
theorem C8_backoff_schedule :
    (∀ (hash : String → String) (ttl rpm : ℚ) (cw : Bool) (net : Nat → Outcome)
        (base path : String) (params : List (String × JVal)) (s : SvcState),
      (∀ n, (net n).retryable = true) →
      Top.cache_get ttl s.cache (Top.request_key hash base path params) s.now = none →
      sleeps (Top.get_json hash ttl rpm cw net base path params true s).evs =
        [backoffDelay Top.BACKOFF_FACTOR 1, backoffDelay Top.BACKOFF_FACTOR 2,
         backoffDelay Top.BACKOFF_FACTOR 3, backoffDelay Top.BACKOFF_FACTOR 4,
         backoffDelay Top.BACKOFF_FACTOR 5]) ∧
    (∀ (hash : String → String) (cw : Bool) (net : Nat → Outcome) (path : String)
        (params : List (String × JVal)) (s : SvcState),
      (∀ n, (net n).retryable = true) →
      Nest.cache_get s.cache (Nest.cache_key hash path params) s.now = Except.ok none →
      sleeps (Nest.get_json hash cw net path params s).evs =
        [backoffDelay Nest.BACKOFF 1, backoffDelay Nest.BACKOFF 2,
         backoffDelay Nest.BACKOFF 3, backoffDelay Nest.BACKOFF 4,
         backoffDelay Nest.BACKOFF 5]) ∧
    (∀ n m : Nat, n ≤ m → backoffDelay (3 / 2) n ≤ backoffDelay (3 / 2) m) := by
  refine ⟨?_, ?_, ?_⟩
  · intro hash ttl rpm cw net base path params s hr hmiss
    have hrate := Top.apply_rate_limit_spec rpm s
    have hloop := Top.top_loop_all_retryable cw true net
      (Top.request_key hash base path params) hr Top.MAX_RETRIES 0
      (Top.apply_rate_limit rpm s).1
    have h5 : Top.MAX_RETRIES = 5 := rfl
    rw [h5] at hloop
    simp [Top.get_json, hmiss, hrate.2.1, h5, hloop.2.2.1]
    norm_num [List.range_succ]
  · intro hash cw net path params s hr hmiss
    have hrate := Nest.rate_limit_spec Nest.RATE_LIMIT s
    have hloop := Nest.nest_loop_all_retryable cw net
      (Nest.cache_key hash path params) hr Nest.MAX_RETRIES 0
      (Nest.rate_limit Nest.RATE_LIMIT s).1
    have h5 : Nest.MAX_RETRIES = 5 := rfl
    rw [h5] at hloop
    simp [Nest.get_json, hmiss, hrate.2.2.2.2, h5, hloop.2.2.1]
    norm_num [List.range_succ]
  · intro n m hnm
    simpa [backoffDelay] using
      pow_le_pow_right₀ (by norm_num : (1 : ℚ) ≤ 3 / 2) hnm

/-- C8 witness: the schedule theorem at a concrete all-503 run for both
services, and monotonicity at 1 ≤ 2. -/
theorem C8_backoff_schedule_witness :
    sleeps (Top.get_json (fun _ => "k") 21600 30 false
        (fun _ => Outcome.status 503 JVal.null) "" "/x" [] true ⟨-1000, 0, []⟩).evs =
      [backoffDelay Top.BACKOFF_FACTOR 1, backoffDelay Top.BACKOFF_FACTOR 2,
       backoffDelay Top.BACKOFF_FACTOR 3, backoffDelay Top.BACKOFF_FACTOR 4,
       backoffDelay Top.BACKOFF_FACTOR 5] ∧
    sleeps (Nest.get_json (fun _ => "k") false
        (fun _ => Outcome.status 503 JVal.null) "/x" [] ⟨-1000, 0, []⟩).evs =
      [backoffDelay Nest.BACKOFF 1, backoffDelay Nest.BACKOFF 2,
       backoffDelay Nest.BACKOFF 3, backoffDelay Nest.BACKOFF 4,
       backoffDelay Nest.BACKOFF 5] ∧
    backoffDelay (3 / 2) 1 ≤ backoffDelay (3 / 2) 2 :=
  ⟨C8_backoff_schedule.1 (fun _ => "k") 21600 30 false
      (fun _ => Outcome.status 503 JVal.null) "" "/x" [] ⟨-1000, 0, []⟩
      (fun _ => rfl) rfl,
   C8_backoff_schedule.2.1 (fun _ => "k") false
      (fun _ => Outcome.status 503 JVal.null) "/x" [] ⟨-1000, 0, []⟩
      (fun _ => rfl) rfl,
   C8_backoff_schedule.2.2 1 2 (by norm_num)⟩

/-- C9 (counterexample): the claim says every store goes to a temporary
location followed by an atomic rename, so a concurrent lookup sees either the
complete old payload or the complete new payload.  _cache_set in fact opens
the destination file itself with mode "w", which truncates it in place, and
then writes: the operation sequence contains no rename, and between the
truncation and the write the visible file content is the empty string —
neither the old payload nor the new one. -/
theorem C9_atomic_store_counterexample :
    fileStates (JVal.dumps (JVal.obj [("a", JVal.null)]))
        (Top.cache_set_ops (JVal.obj [("b", JVal.bool true)])) =
      [JVal.dumps (JVal.obj [("a", JVal.null)]), "",
       JVal.dumps (JVal.obj [("b", JVal.bool true)])] ∧
    ("" = JVal.dumps (JVal.obj [("a", JVal.null)])) = False ∧
    ("" = JVal.dumps (JVal.obj [("b", JVal.bool true)])) = False ∧
    Top.cache_set_ops (JVal.obj [("b", JVal.bool true)]) =
      [FsOp.openTruncate, FsOp.writeChunk (JVal.dumps (JVal.obj [("b", JVal.bool true)]))] ∧
    FsOp.isRename FsOp.openTruncate = false ∧
    FsOp.isRename (FsOp.writeChunk (JVal.dumps (JVal.obj [("b", JVal.bool true)]))) = false := by
  refine ⟨by decide, by decide, by decide, rfl, rfl, rfl⟩

/-- C9 (amended): _cache_set writes the serialized payload directly to the
final path: the visible file contents during a store of payload v over old
content are exactly [old, "", dumps v] — the destination is truncated in
place and then written, with no rename operation anywhere in the sequence.
A lookup concurrent with the store can therefore observe the torn
intermediate state; the top-level _cache_get treats such an unparseable file
as a miss (see C5), the nested one raises. -/
theorem C9_atomic_store_amended :
    ∀ (v : JVal) (old : String),
      fileStates old (Top.cache_set_ops v) = [old, "", JVal.dumps v] ∧
      ∀ op ∈ Top.cache_set_ops v, op.isRename = false := by
  intro v old
  constructor
  · simp [fileStates, Top.cache_set_ops, List.scanl, applyOp]
  · intro op hop
    simp only [Top.cache_set_ops, List.mem_cons, List.not_mem_nil, or_false] at hop
    rcases hop with h | h <;> subst h <;> rfl

/-- C9 witness: the amended theorem at payload null over old content "x",
with the no-rename clause instantiated at the first operation. -/
theorem C9_atomic_store_witness :
    fileStates "x" (Top.cache_set_ops JVal.null) = ["x", "", JVal.dumps JVal.null] ∧
    FsOp.isRename FsOp.openTruncate = false :=
  ⟨(C9_atomic_store_amended JVal.null "x").1,
   (C9_atomic_store_amended JVal.null "x").2 FsOp.openTruncate
     (List.mem_cons_self _ _)⟩

/-- C10 (confirmed): in get_json of the nested service the cached value is
returned only when truthy.  For a fresh cache entry whose payload v is falsy
(for example the empty object), the fetch proceeds anyway: with the first
attempt answering 200 with payload w, the run performs a network attempt,
invokes the rate limiter (the recorded last_ts moves at least
60 / RATE_LIMIT past the previous one), returns w, and overwrites the fresh
entry with w. -/
theorem C10_falsy_cache_hit_refetches :
    ∀ (hash : String → String) (net : Nat → Outcome) (path : String)
        (params : List (String × JVal)) (s : SvcState) (v w : JVal) (mt : ℚ),
      assocFind s.cache (Nest.cache_key hash path params) = some ⟨mt, FileContent.good v⟩ →
      ¬(s.now - mt > Nest.TTL) →
      v.isTruthy = false →
      net 1 = Outcome.status 200 w →
      (Nest.get_json hash false net path params s).result = FetchResult.ok w ∧
      countAttempts (Nest.get_json hash false net path params s).evs = 1 ∧
      s.lastTs + 60 / Nest.RATE_LIMIT ≤ (Nest.get_json hash false net path params s).state.lastTs ∧
      assocFind (Nest.get_json hash false net path params s).state.cache
          (Nest.cache_key hash path params) =
        some ⟨(Nest.rate_limit Nest.RATE_LIMIT s).1.now, FileContent.good w⟩ := by
  intro hash net path params s v w mt hfind hfresh htruthy hnet
  have hrate := Nest.rate_limit_spec Nest.RATE_LIMIT s
  have hcg : Nest.cache_get s.cache (Nest.cache_key hash path params) s.now =
      Except.ok (some v) := by
    simp only [Nest.cache_get, hfind]
    rw [if_neg hfresh]
  refine ⟨?_, ?_, ?_, ?_⟩
  · simp [Nest.get_json, hcg, htruthy, Nest.loop, Nest.MAX_RETRIES, hnet]
  · simp [Nest.get_json, hcg, htruthy, Nest.loop, Nest.MAX_RETRIES, hnet,
      hrate.2.2.2.1, Ev.isAttempt]
  · simp only [Nest.get_json, hcg, htruthy]
    simp [Nest.loop, Nest.MAX_RETRIES, hnet]
    rw [hrate.1]
    exact hrate.2.1
  · simp only [Nest.get_json, hcg, htruthy]
    simp [Nest.loop, Nest.MAX_RETRIES, hnet, assocFind_assocSet_self]

/-- C10 witness: the theorem at a concrete fresh falsy entry (the empty
object) with an upstream answering 200 with a nonempty object. -/
theorem C10_falsy_cache_hit_refetches_witness :
    (Nest.get_json (fun _ => "k") false
        (fun _ => Outcome.status 200 (JVal.obj [("x", JVal.null)])) "/p" []
        ⟨0, 0, [("k", ⟨0, FileContent.good (JVal.obj [])⟩)]⟩).result =
      FetchResult.ok (JVal.obj [("x", JVal.null)]) ∧
    countAttempts (Nest.get_json (fun _ => "k") false
        (fun _ => Outcome.status 200 (JVal.obj [("x", JVal.null)])) "/p" []
        ⟨0, 0, [("k", ⟨0, FileContent.good (JVal.obj [])⟩)]⟩).evs = 1 ∧
    (0 : ℚ) + 60 / Nest.RATE_LIMIT ≤ (Nest.get_json (fun _ => "k") false
        (fun _ => Outcome.status 200 (JVal.obj [("x", JVal.null)])) "/p" []
        ⟨0, 0, [("k", ⟨0, FileContent.good (JVal.obj [])⟩)]⟩).state.lastTs ∧
    assocFind (Nest.get_json (fun _ => "k") false
        (fun _ => Outcome.status 200 (JVal.obj [("x", JVal.null)])) "/p" []
        ⟨0, 0, [("k", ⟨0, FileContent.good (JVal.obj [])⟩)]⟩).state.cache
        (Nest.cache_key (fun _ => "k") "/p" []) =
      some ⟨(Nest.rate_limit Nest.RATE_LIMIT
        ⟨0, 0, [("k", ⟨0, FileContent.good (JVal.obj [])⟩)]⟩).1.now,
        FileContent.good (JVal.obj [("x", JVal.null)])⟩ :=
  C10_falsy_cache_hit_refetches (fun _ => "k")
    (fun _ => Outcome.status 200 (JVal.obj [("x", JVal.null)])) "/p" []
    ⟨0, 0, [("k", ⟨0, FileContent.good (JVal.obj [])⟩)]⟩ (JVal.obj [])
    (JVal.obj [("x", JVal.null)]) 0 rfl (by norm_num [Nest.TTL]) rfl rfl
